import Mathlib

/-!
Shallow embedding of `src/app.py` (Quart AI agent): the sliding-window rate
limiter, the Redis-backed chat history, the `aiocache`-memoised crypto price
fetcher, the model-call wrapper, and the `/agent` route's action dispatch.

Time values (`time.time()`) are modelled as rationals; the Redis list stored
under `rate_limit:{user_id}` is a `List ℚ`; the Redis list under
`history:{user_id}` is a `List String`; network / backend effects are made
explicit as `Except`-valued or enumerated-outcome parameters.
-/

namespace App

/-- `REQUEST_LIMIT = 5` from app.py line 75. -/
def REQUEST_LIMIT : Nat := 5

/-- `TIME_FRAME = 60` seconds from app.py line 76. -/
def TIME_FRAME : ℚ := 60

/-- Keep the last `n` elements of a list: Redis `LTRIM key -n -1`. -/
def lastN (n : Nat) (l : List α) : List α := l.drop (l.length - n)

/-- State stored at `rate_limit:{user_id}`: the timestamp list plus the
key's pending expiry (set by `EXPIRE key TIME_FRAME`). -/
structure RLState where
  timestamps : List ℚ
  expiry : Option ℚ
deriving DecidableEq, Repr

/-- Line 87: `[float(t) for t in requests[0] if current_time - float(t) < TIME_FRAME]`. -/
def freshRequests (now : ℚ) (stored : List ℚ) : List ℚ :=
  stored.filter (fun t => now - t < TIME_FRAME)

/-- `rate_limited` (app.py lines 78-100) on the error-free path: read the
list, filter to fresh timestamps, reject if at least `REQUEST_LIMIT` survive,
otherwise `RPUSH now`, `LTRIM -REQUEST_LIMIT -1`, `EXPIRE TIME_FRAME` and
admit.  Returns the admission decision and the post-call stored state. -/
def rate_limited (now : ℚ) (st : RLState) : Bool × RLState :=
  let requests := freshRequests now st.timestamps
  if REQUEST_LIMIT ≤ requests.length then (false, st)
  else (true, ⟨lastN REQUEST_LIMIT (st.timestamps ++ [now]), some (now + TIME_FRAME)⟩)

/-- The Boolean result of `rate_limited` when backend operations may raise:
the whole body sits in a `try` whose `except` returns `False` (lines 83-100),
so an error during the read pipeline or during the write pipeline yields
`false`.  `readErr` marks a failure of the `lrange`/first `execute`,
`writeErr` a failure of the `rpush`/`ltrim`/`expire`/second `execute`. -/
def rate_limitedResult (readErr writeErr : Bool) (now : ℚ) (st : RLState) : Bool :=
  if readErr then false
  else
    if REQUEST_LIMIT ≤ (freshRequests now st.timestamps).length then false
    else if writeErr then false
    else true

/-- Run a sequence of `rate_limited` calls at the given times, starting from
an absent key (empty list, no expiry); collect the decisions. -/
def runCalls (times : List ℚ) : List Bool × RLState :=
  times.foldl
    (fun acc t =>
      let r := rate_limited t acc.2
      (acc.1 ++ [r.1], r.2))
    ([], ⟨[], none⟩)

/-- `update_chat_history` (app.py lines 106-110): `RPUSH` the two entries
`User: {user_message}` and `AI: {assistant_response}`, then
`LTRIM key -10 -1` keeps the last 10 entries. -/
def update_chat_history (hist : List String) (userMessage assistantResponse : String) : List String :=
  lastN 10 (hist ++ [("User: " ++ userMessage), ("AI: " ++ assistantResponse)])

/-- `get_chat_history` (app.py lines 112-114): `LRANGE key 0 -1 or []`.
The Redis store is modelled as a partial map from user id to the stored
list; a missing key reads as the empty list. -/
def get_chat_history (store : String → Option (List String)) (user_id : String) : List String :=
  (store user_id).getD []

/-! ### Python string primitives used by app.py

`str.lower`, `in` (substring test), `str.replace(pat, "")` and `str.strip()`
are modelled character-wise on `List Char`, matching CPython semantics for
the ASCII strings this application handles. -/

/-- Python `s.lower()`. -/
def pyLower (s : String) : String := ⟨s.data.map Char.toLower⟩

/-- Python `p in s` on character lists: `p` occurs as a contiguous
subsequence of `s`. -/
def containsSub (p : List Char) : List Char → Bool
  | [] => p.isEmpty
  | c :: t => p.isPrefixOf (c :: t) || containsSub p t

/-- Left-to-right non-overlapping removal of pattern `p` (Python
`s.replace(p, "")`), fuelled by the length of the scanned list; each step
consumes at least one character, so fuel `s.length` always suffices. -/
def removeAllGo (p : List Char) : Nat → List Char → List Char
  | _, [] => []
  | 0, s => s
  | Nat.succ fuel, c :: t =>
    if p.isPrefixOf (c :: t) && !p.isEmpty then removeAllGo p fuel (t.drop (p.length - 1))
    else c :: removeAllGo p fuel t

/-- Python `s.replace(p, "")`. -/
def removeAll (p s : List Char) : List Char := removeAllGo p s.length s

/-- Python `s.strip()`: drop whitespace from both ends. -/
def pyStrip (s : List Char) : List Char :=
  ((s.dropWhile Char.isWhitespace).reverse.dropWhile Char.isWhitespace).reverse

/-- Python `s.capitalize()`: first character uppercased, the rest
lowercased. -/
def pyCapitalize (s : String) : String :=
  match s.data with
  | [] => ⟨[]⟩
  | c :: t => ⟨Char.toUpper c :: t.map Char.toLower⟩

/-! ### Expiring memo cache (`@aiocache.cached(ttl=30, ...)` on
`fetch_crypto_price`, app.py line 120)

`aiocache`'s decorator builds the cache key from the decorated function's
name and its raw arguments — the `crypto_name` string exactly as passed, no
case normalisation — and stores whatever value the function returns, with a
30-second time-to-live.  The cache is an association list from key to
(value, store-time); an entry older than the TTL is treated as absent. -/

/-- Cache entry: stored value and the time it was stored. -/
structure CacheEntry where
  value : String
  storedAt : ℚ
deriving DecidableEq, Repr

/-- `ttl=30` from the decorator on app.py line 120. -/
def cacheTTL : ℚ := 30

/-- Exact-key dictionary lookup (Python `dict` keyed by the raw string). -/
def assocLookup (key : String) : List (String × CacheEntry) → Option CacheEntry
  | [] => none
  | (k, e) :: rest => if k = key then some e else assocLookup key rest

/-- Cache read at time `now`: an entry is a hit only while
`now - storedAt < cacheTTL`. -/
def cacheLookup (now : ℚ) (c : List (String × CacheEntry)) (key : String) : Option String :=
  match assocLookup key c with
  | some e => if now - e.storedAt < cacheTTL then some e.value else none
  | none => none

/-- One call through the memoising decorator: on a hit return the stored
value without invoking `fetch`; on a miss (absent or expired) invoke
`fetch key`, store the result at time `now`, and return it.  The third
component records whether `fetch` was invoked by this call. -/
def get_or_fetch (now : ℚ) (c : List (String × CacheEntry)) (key : String)
    (fetch : String → String) : String × List (String × CacheEntry) × Bool :=
  match cacheLookup now c key with
  | some v => (v, c, false)
  | none => (fetch key, (key, ⟨fetch key, now⟩) :: c, true)

/-- Outcome of the HTTP GET inside `fetch_crypto_price` (app.py lines
126-136): either an exception (timeout included), or a response with a
status code and the optional `usd` value found in the JSON body under the
lowercased coin name. -/
inductive HttpOutcome where
  | exn : HttpOutcome
  | resp (status : Nat) (usdPrice : Option ℚ) : HttpOutcome
deriving DecidableEq, Repr

/-- Body of `fetch_crypto_price` (app.py lines 121-137), the function the
cache decorator wraps: any exception yields `"Error fetching price."`; a
non-200 status yields `"Failed to fetch {name} price."`; a missing (or
Python-falsy, i.e. zero) price yields `"Price for {name} not found."`;
otherwise the formatted price line.  Every failure mode returns a plain
string — no exception escapes. -/
def fetch_crypto_price_body (crypto_name : String) (outcome : HttpOutcome) : String :=
  match outcome with
  | HttpOutcome.exn => ("Error fetching price.")
  | HttpOutcome.resp status usdPrice =>
    if status ≠ 200 then ("Failed to fetch ") ++ crypto_name ++ (" price.")
    else
      match usdPrice with
      | some p =>
        if p ≠ 0 then ("The current price of ") ++ pyCapitalize crypto_name ++ (" is $") ++ toString p
        else ("Price for ") ++ crypto_name ++ (" not found.")
      | none => ("Price for ") ++ crypto_name ++ (" not found.")

/-! ### Model call wrapper (`enforce_english_response`, app.py lines
143-165) -/

/-- The fixed fallback returned when the model call raises (app.py line
165). -/
def fallbackMessage : String := ("I encountered an issue. Please try again.")

/-- `enforce_english_response` restricted to what it does with the user's
history: on a successful model call the exchange is appended via
`update_chat_history`; if `client.chat.completions.create` raises, the
`except` branch returns the fixed fallback and `update_chat_history` is
never reached, so the stored history is unchanged.  Returns the response
text and the user's post-call history. -/
def enforce_english_response (hist : List String) (userInput : String)
    (modelResult : Except Unit String) : String × List String :=
  match modelResult with
  | Except.ok resp => (resp, update_chat_history hist userInput resp)
  | Except.error _ => (fallbackMessage, hist)

/-! ### `/agent` route dispatch (`ai_agent`, app.py lines 171-192) -/

/-- Which handler an admitted request's `action` selects. -/
inductive AgentPath where
  | price (crypto_name : String) : AgentPath
  | translate : AgentPath
  | chat : AgentPath
deriving DecidableEq, Repr

/-- Action dispatch of `ai_agent` (app.py lines 176, 185-192):
`action = data.get("action", "").lower()`; if `"price" in action` the price
path is taken with `crypto_name = action.replace("price of", "").strip()`;
else `action == "translate"` and the default both go to
`enforce_english_response`. -/
def ai_agent_dispatch (rawAction : String) : AgentPath :=
  let action := pyLower rawAction
  if containsSub (String.data ("price")) action.data then
    AgentPath.price ⟨pyStrip (removeAll (String.data ("price of")) action.data)⟩
  else if action = ("translate") then AgentPath.translate
  else AgentPath.chat

/-! ### Concrete scenario data -/

/-- Eleven user/assistant exchanges with distinct texts. -/
def elevenExchanges : List (String × String) :=
  [(("m1"), ("r1")), (("m2"), ("r2")), (("m3"), ("r3")), (("m4"), ("r4")),
   (("m5"), ("r5")), (("m6"), ("r6")), (("m7"), ("r7")), (("m8"), ("r8")),
   (("m9"), ("r9")), (("m10"), ("r10")), (("m11"), ("r11"))]

/-- The stored history after appending the eleven exchanges, starting from
an empty log. -/
def histAfterEleven : List String :=
  elevenExchanges.foldl (fun h p => update_chat_history h p.1 p.2) []

/-- All 22 entries the eleven exchanges would produce with no truncation. -/
def allElevenEntries : List String :=
  elevenExchanges.foldl
    (fun acc p => acc ++ [("User: " ++ p.1), ("AI: " ++ p.2)]) []

/-- A sample history store holding entries for exactly one user. -/
def sampleStore : String → Option (List String) :=
  fun u => if u = ("alice") then some [("User: hi"), ("AI: hello")] else none

/-- The price fetcher when the HTTP request raises: the wrapped body maps
every exception to the fixed error string. -/
def failFetch : String → String :=
  fun k => fetch_crypto_price_body k HttpOutcome.exn

/-- A sample successful fetch function. -/
def btcFetch : String → String := fun _ => ("fetched")

/-! ## Theorems -/

/-- Keeping the last `n` elements yields at most `n` elements. -/
theorem length_lastN (n : Nat) (l : List α) : (lastN n l).length ≤ n := by
  simp [lastN]
  omega

/-- On the error-free path `rate_limitedResult` agrees with the decision
component of `rate_limited`. -/
theorem rate_limitedResult_no_error (now : ℚ) (st : RLState) :
    rate_limitedResult false false now st = (rate_limited now st).1 := by
  simp only [rate_limitedResult, rate_limited]
  by_cases h : REQUEST_LIMIT ≤ (freshRequests now st.timestamps).length <;> simp [h]

/-- C1: with `REQUEST_LIMIT = 5` and `TIME_FRAME = 60`, five admit calls at
`t = 0` all return true, a sixth call at `t = 10` returns false, and a
seventh call at `t = 61` returns true, the five `t = 0` entries having left
the trailing 60-second window. -/
theorem c1_rate_limit_sequence :
    (runCalls [0, 0, 0, 0, 0, 10, 61]).1 =
      [true, true, true, true, true, false, true] := by
  norm_num [runCalls, rate_limited, freshRequests, lastN, TIME_FRAME, REQUEST_LIMIT,
    List.filter]

/-- C2 counterexample: after appending 11 exchanges (22 entries) to an empty
log, the stored history — which `get_chat_history` returns verbatim — has 10
entries, not 20, and is not the most recent 20 entries of the full stream:
the code trims with `LTRIM key -10 -1`, an entry bound of 10, not 20. -/
theorem c2_history_20_cex :
    histAfterEleven.length ≠ 20 ∧ histAfterEleven ≠ lastN 20 allElevenEntries := by
  decide

/-- C2 (amended): after appending 11 exchanges (22 entries) to an empty log,
the stored history is exactly the most recent 10 entries of the stream,
oldest first (the earliest 12 entries evicted), and no append ever leaves
more than 10 entries in the log. -/
theorem c2_history_bound :
    histAfterEleven = lastN 10 allElevenEntries ∧
    histAfterEleven =
      [("User: m7"), ("AI: r7"), ("User: m8"), ("AI: r8"), ("User: m9"), ("AI: r9"),
       ("User: m10"), ("AI: r10"), ("User: m11"), ("AI: r11")] ∧
    (∀ (hist : List String) (u a : String), (update_chat_history hist u a).length ≤ 10) := by
  refine ⟨by decide, by decide, ?_⟩
  intro hist u a
  simp [update_chat_history, lastN]
  omega

/-- C5: whenever a backend operation errors during the read or the write
sequence of `rate_limited`, the `except` branch makes the call return
`false`; it never returns `true` under a backend error. -/
theorem c5_fail_closed (readErr writeErr : Bool) (now : ℚ) (st : RLState)
    (h : readErr = true ∨ writeErr = true) :
    rate_limitedResult readErr writeErr now st = false := by
  unfold rate_limitedResult
  rcases h with h | h <;> subst h
  · simp
  · cases readErr
    · simp only [Bool.false_eq_true, if_false, if_true]
      split <;> rfl
    · simp

/-- Witness for C5 at a concrete input: a read error at time 0 on an empty
window is rejected. -/
theorem c5_fail_closed_witness :
    (true = true ∨ false = true) ∧
      rate_limitedResult true false 0 ⟨[], none⟩ = false :=
  ⟨Or.inl rfl, c5_fail_closed true false 0 ⟨[], none⟩ (Or.inl rfl)⟩

/-- C6: if the model call raises, `enforce_english_response` returns the
fixed fallback message and the user's history is unchanged — the user input
is never appended without its assistant reply. -/
theorem c6_no_partial_exchange (hist : List String) (userInput : String) :
    enforce_english_response hist userInput (Except.error ()) = (fallbackMessage, hist) :=
  rfl

/-- C7: a `rate_limited` call rejects and leaves the stored state unchanged
when at least `REQUEST_LIMIT` stored timestamps are inside the trailing
window (stale entries excluded from the count); otherwise it appends `now`,
trims to the last `REQUEST_LIMIT` entries, refreshes the expiry to
`now + TIME_FRAME`, and admits — and the stored list never exceeds
`REQUEST_LIMIT` entries after the call. -/
theorem c7_rate_limiter_step (now : ℚ) (st : RLState)
    (hlen : st.timestamps.length ≤ REQUEST_LIMIT) :
    (if REQUEST_LIMIT ≤ (freshRequests now st.timestamps).length then
        rate_limited now st = (false, st)
      else
        rate_limited now st =
          (true, ⟨lastN REQUEST_LIMIT (st.timestamps ++ [now]), some (now + TIME_FRAME)⟩)) ∧
    (rate_limited now st).2.timestamps.length ≤ REQUEST_LIMIT := by
  unfold rate_limited
  by_cases h : REQUEST_LIMIT ≤ (freshRequests now st.timestamps).length
  · simp [h, hlen]
  · simp [h, length_lastN]

/-- Witness for C7 at a concrete input: the first call on a fresh window at
time 0 admits, stores `[0]`, and keeps the bound. -/
theorem c7_rate_limiter_step_witness :
    (⟨[], none⟩ : RLState).timestamps.length ≤ REQUEST_LIMIT ∧
    ((if REQUEST_LIMIT ≤ (freshRequests 0 (⟨[], none⟩ : RLState).timestamps).length then
        rate_limited 0 ⟨[], none⟩ = (false, ⟨[], none⟩)
      else
        rate_limited 0 ⟨[], none⟩ =
          (true, ⟨lastN REQUEST_LIMIT (([] : List ℚ) ++ [0]), some (0 + TIME_FRAME)⟩)) ∧
      (rate_limited 0 ⟨[], none⟩).2.timestamps.length ≤ REQUEST_LIMIT) :=
  ⟨by decide, c7_rate_limiter_step 0 ⟨[], none⟩ (by decide)⟩

/-- C9: `get_chat_history` returns the empty list for a user with no stored
history (never an error), and returns the stored entries verbatim — in
stored, oldest-first order — for a user with history. -/
theorem c9_read_history (store : String → Option (List String)) (user_id : String) :
    (store user_id = none → get_chat_history store user_id = []) ∧
    (∀ l, store user_id = some l → get_chat_history store user_id = l) := by
  refine ⟨?_, ?_⟩
  · intro h
    simp [get_chat_history, h]
  · intro l h
    simp [get_chat_history, h]

/-- Witness for C9 at concrete inputs: a user absent from the store reads
as the empty history, a present user reads their stored entries. -/
theorem c9_read_history_witness :
    (sampleStore ("bob") = none ∧ get_chat_history sampleStore ("bob") = []) ∧
    (sampleStore ("alice") = some [("User: hi"), ("AI: hello")] ∧
      get_chat_history sampleStore ("alice") = [("User: hi"), ("AI: hello")]) :=
  ⟨⟨by decide, (c9_read_history sampleStore ("bob")).1 (by decide)⟩,
   ⟨by decide, (c9_read_history sampleStore ("alice")).2 _ (by decide)⟩⟩

/-- C3 counterexample: the cache key is the raw argument, with no case
normalisation — after a call with key `"btc"` at time 0, a call with key
`"BTC"` at time 1 misses and invokes the fetch function again, contrary to
the claim that both forms hit the same entry. -/
theorem c3_case_normalization_cex :
    (get_or_fetch 1 (get_or_fetch 0 [] ("btc") (fun _ => ("v"))).2.1 ("BTC")
        (fun _ => ("v"))).2.2 = true := by
  decide

/-- C3 (amended): cache keys are case-sensitive raw strings — calls with
`"btc"` and `"BTC"` occupy two distinct entries and each first use invokes
the fetch function, while a repeat of the identical-case key within the TTL
hits its cached entry and does not invoke the fetch function. -/
theorem c3_case_sensitive_keys :
    (get_or_fetch 1 (get_or_fetch 0 [] ("btc") (fun _ => ("v"))).2.1 ("BTC")
        (fun _ => ("v"))).2.1 =
      [(("BTC"), ⟨("v"), 1⟩), (("btc"), ⟨("v"), 0⟩)] ∧
    (get_or_fetch 2 (get_or_fetch 0 [] ("btc") (fun _ => ("v"))).2.1 ("btc")
        (fun _ => ("v"))).2.2 = false ∧
    (get_or_fetch 2 (get_or_fetch 0 [] ("btc") (fun _ => ("v"))).2.1 ("btc")
        (fun _ => ("v"))).1 = ("v") := by
  refine ⟨by decide, ?_, ?_⟩ <;>
    norm_num [get_or_fetch, cacheLookup, assocLookup, cacheTTL]

/-- C4 counterexample: a failed fetch IS stored in the cache — after the
HTTP request raises at time 0, the error text is cached, so a call for the
same key at time 10 (within the TTL) returns without invoking the fetch
function again, contrary to the claim. -/
theorem c4_failure_not_cached_cex :
    (get_or_fetch 10 (get_or_fetch 0 [] ("btc") failFetch).2.1 ("btc")
        failFetch).2.2 = false := by
  norm_num [get_or_fetch, cacheLookup, assocLookup, cacheTTL, failFetch,
    fetch_crypto_price_body]

/-- C4 (amended): every failed price lookup — exception/timeout, non-200
status, or value absent from the response — is surfaced as a textual
result, never an unhandled exception; but such failure results are cached
exactly like successes: a subsequent call for the same key within the TTL
returns the stored failure text without invoking the fetch function again. -/
theorem c4_failure_text_and_caching :
    (∀ name, fetch_crypto_price_body name HttpOutcome.exn = ("Error fetching price.")) ∧
    (∀ name status price, status ≠ 200 →
      fetch_crypto_price_body name (HttpOutcome.resp status price) =
        ("Failed to fetch ") ++ name ++ (" price.")) ∧
    (∀ name, fetch_crypto_price_body name (HttpOutcome.resp 200 none) =
      ("Price for ") ++ name ++ (" not found.")) ∧
    (get_or_fetch 10 (get_or_fetch 0 [] ("btc") failFetch).2.1 ("btc") failFetch).1 =
      ("Error fetching price.") ∧
    (get_or_fetch 10 (get_or_fetch 0 [] ("btc") failFetch).2.1 ("btc") failFetch).2.2 =
      false := by
  refine ⟨fun name => rfl, ?_, fun name => rfl, ?_, ?_⟩
  · intro name status price h
    simp [fetch_crypto_price_body, h]
  · norm_num [get_or_fetch, cacheLookup, assocLookup, cacheTTL, failFetch,
      fetch_crypto_price_body]
  · norm_num [get_or_fetch, cacheLookup, assocLookup, cacheTTL, failFetch,
      fetch_crypto_price_body]

/-- Witness for C4 at a concrete input: a 500 status maps to the textual
failure result. -/
theorem c4_failure_text_witness :
    (500 ≠ 200) ∧
    fetch_crypto_price_body ("btc") (HttpOutcome.resp 500 none) =
      ("Failed to fetch ") ++ ("btc") ++ (" price.") :=
  ⟨by decide, c4_failure_text_and_caching.2.1 ("btc") 500 none (by decide)⟩

/-- C8: for every key and fetch function, starting from an empty cache the
first call invokes the fetch function and returns its value; a second call
for the same key within the 30-second TTL returns the stored value without
invoking the fetch function; and a call after the TTL has elapsed invokes
the fetch function again. -/
theorem c8_cache_hit_miss (key : String) (fetch : String → String) (t0 t1 t2 : ℚ)
    (h1 : t1 - t0 < cacheTTL) (h2 : cacheTTL ≤ t2 - t0) :
    (get_or_fetch t0 [] key fetch).2.2 = true ∧
    (get_or_fetch t0 [] key fetch).1 = fetch key ∧
    (get_or_fetch t1 (get_or_fetch t0 [] key fetch).2.1 key fetch).1 = fetch key ∧
    (get_or_fetch t1 (get_or_fetch t0 [] key fetch).2.1 key fetch).2.2 = false ∧
    (get_or_fetch t2
      (get_or_fetch t1 (get_or_fetch t0 [] key fetch).2.1 key fetch).2.1 key
        fetch).2.2 = true := by
  simp [get_or_fetch, cacheLookup, assocLookup, if_pos h1, if_neg (not_lt.mpr h2)]

/-- Witness for C8 at concrete inputs: key `"BTC"`, calls at times 0, 10
and 31. -/
theorem c8_cache_hit_miss_witness :
    ((10 : ℚ) - 0 < cacheTTL) ∧ (cacheTTL ≤ (31 : ℚ) - 0) ∧
    ((get_or_fetch 0 [] ("BTC") btcFetch).2.2 = true ∧
      (get_or_fetch 0 [] ("BTC") btcFetch).1 = btcFetch ("BTC") ∧
      (get_or_fetch 10 (get_or_fetch 0 [] ("BTC") btcFetch).2.1 ("BTC") btcFetch).1 =
        btcFetch ("BTC") ∧
      (get_or_fetch 10 (get_or_fetch 0 [] ("BTC") btcFetch).2.1 ("BTC") btcFetch).2.2 =
        false ∧
      (get_or_fetch 31
        (get_or_fetch 10 (get_or_fetch 0 [] ("BTC") btcFetch).2.1 ("BTC") btcFetch).2.1
          ("BTC") btcFetch).2.2 = true) :=
  ⟨by norm_num [cacheTTL], by norm_num [cacheTTL],
    c8_cache_hit_miss ("BTC") btcFetch 0 10 31 (by norm_num [cacheTTL])
      (by norm_num [cacheTTL])⟩

/-- C10: an admitted request takes the price-lookup path exactly when the
lowercased action contains the substring `"price"` anywhere (so
`"priceless"` takes it too), and the key passed to the price fetcher is the
lowercased action with every occurrence of `"price of"` removed and
surrounding whitespace stripped — so `"price btc"` yields the key
`"price btc"`, not `"btc"`, while `"price of btc"` yields `"btc"`. -/
theorem c10_price_dispatch :
    (∀ raw, (∃ k, ai_agent_dispatch raw = AgentPath.price k) ↔
      containsSub (String.data ("price")) (pyLower raw).data = true) ∧
    (∀ raw, containsSub (String.data ("price")) (pyLower raw).data = true →
      ai_agent_dispatch raw =
        AgentPath.price ⟨pyStrip (removeAll (String.data ("price of")) (pyLower raw).data)⟩) ∧
    ai_agent_dispatch ("priceless") = AgentPath.price ("priceless") ∧
    ai_agent_dispatch ("price btc") = AgentPath.price ("price btc") ∧
    ai_agent_dispatch ("price of btc") = AgentPath.price ("btc") := by
  refine ⟨?_, ?_, by decide, by decide, by decide⟩
  · intro raw
    constructor
    · rintro ⟨k, hk⟩
      by_cases h : containsSub (String.data ("price")) (pyLower raw).data = true
      · exact h
      · rw [ai_agent_dispatch] at hk
        simp only [h, if_false, Bool.false_eq_true] at hk
        split at hk <;> simp_all
    · intro h
      refine ⟨⟨pyStrip (removeAll (String.data ("price of")) (pyLower raw).data)⟩, ?_⟩
      simp [ai_agent_dispatch, h]
  · intro raw h
    simp [ai_agent_dispatch, h]

/-- Witness for C10 at a concrete input: action `"price eth"` takes the
price path with key `"price eth"`. -/
theorem c10_price_dispatch_witness :
    (containsSub (String.data ("price")) (pyLower ("price eth")).data = true) ∧
    ai_agent_dispatch ("price eth") =
      AgentPath.price
        ⟨pyStrip (removeAll (String.data ("price of")) (pyLower ("price eth")).data)⟩ :=
  ⟨by decide, c10_price_dispatch.2.1 ("price eth") (by decide)⟩

end App
